import Mathlib

/-!
Verification of the clip ingestion, ordering and stream-composition pipeline
of the ahhhhhhh server, as a shallow embedding of the JavaScript sources.

The repository contains several evolutionary snapshots of the same Express
server (src/server.js and src/unnamed/part_000 .. part_004).  Where snapshots
disagree, each relevant snapshot is embedded separately and named after its
source file (Server = src/server.js, P000 = part_000, P001 = part_001,
P002 = part_002, P003 = part_003, P004 = part_004).
-/

namespace Ahh

/-- Entry produced for one file of the catalog directory by the listing code
of the playback endpoint: name, full path, mtime (ms) and byte size, as
gathered by readdirSync + statSync in every snapshot. -/
structure FileEntry where
  name : String
  path : String
  time : Nat
  size : Nat
deriving DecidableEq, Repr

/-- Comparator of the catalog sort in every snapshot:
sort((a, b) => b.time - a.time), i.e. newest first. -/
def timeGe (a b : FileEntry) : Prop := b.time ≤ a.time

instance : DecidableRel timeGe := fun a b => Nat.decLe b.time a.time

instance : IsTotal FileEntry timeGe := ⟨fun a b => Nat.le_total b.time a.time⟩

instance : IsTrans FileEntry timeGe := ⟨fun _ _ _ h1 h2 => Nat.le_trans h2 h1⟩

/-- Oldest-first comparison on entries (used to state chronological order). -/
def timeLe (a b : FileEntry) : Prop := a.time ≤ b.time

instance : DecidableRel timeLe := fun a b => Nat.decLe a.time b.time

instance : IsTotal FileEntry timeLe := ⟨fun a b => Nat.le_total a.time b.time⟩

instance : IsTrans FileEntry timeLe := ⟨fun _ _ _ h1 h2 => Nat.le_trans h1 h2⟩

/-- Strictly-older comparison on entries. -/
def timeLt (a b : FileEntry) : Prop := a.time < b.time

instance : DecidableRel timeLt := fun a b => Nat.decLt a.time b.time

instance : IsAntisymm FileEntry timeLt :=
  ⟨fun _ _ h1 h2 => absurd (Nat.lt_trans h1 h2) (Nat.lt_irrefl _)⟩

/-- The `.sort((a, b) => b.time - a.time)` step: the catalog sorted newest
first.  The JS engine sort is modelled by insertion sort with the same
comparator (the comparator, not the sorting network, is source). -/
def sortByTimeDesc (files : List FileEntry) : List FileEntry :=
  List.insertionSort timeGe files

/-- The JS destructuring swap `[a[i], a[j]] = [a[j], a[i]]` on a list: both
reads happen before both writes; indices out of range leave the list
unchanged (never reached by the shuffle loop). -/
def listSwap (l : List α) (i j : Nat) : List α :=
  match l[i]?, l[j]? with
  | some xi, some xj => (l.set i xj).set j xi
  | some _, none => l
  | none, _ => l

/-- Loop body chain of the Fisher-Yates shuffle
`for (let i = len-1; i > 0; i--) { j = floor(random()*(i+1)); swap i j }`,
counting the loop variable down from `k`.  The random source is injected as
`rnd`; iteration `i` draws `rnd i % (i+1)`, matching
`Math.floor(Math.random() * (i + 1))` which is uniform on `0..i`. -/
def fyFrom (rnd : Nat → Nat) : Nat → List α → List α
  | 0, l => l
  | i + 1, l => fyFrom rnd i (listSwap l (i + 1) (rnd (i + 1) % (i + 2)))

/-- Fisher-Yates shuffle over a whole list, as in every `order=special`
branch of the source. -/
def fisherYates (rnd : Nat → Nat) (l : List α) : List α :=
  fyFrom rnd (l.length - 1) l

/-! ### Playback endpoint, src/server.js snapshot -/

/-- JavaScript String.prototype.endsWith, as a suffix test on the character
sequence of the string. -/
def strEndsWith (s suffix : String) : Bool :=
  suffix.toList.isSuffixOf s.toList

/-- Eligibility filter and catalog sort of GET /api/master_drone in
src/server.js: keep names ending in `.webm`, sort newest first.  This
snapshot applies no size filter and no structural probe. -/
def eligibleServer (listing : List FileEntry) : List FileEntry :=
  sortByTimeDesc (listing.filter (fun f => strEndsWith f.name ".webm"))

/-- Playlist ordering of src/server.js given the newest-first sorted eligible
list: `order=special` with more than one file pins the newest and
Fisher-Yates-shuffles the remainder; otherwise the list is reversed to
oldest-first. -/
def orderedPlaylistServer (special : Bool) (rnd : Nat → Nat)
    (files : List FileEntry) : List FileEntry :=
  if special ∧ 1 < files.length then
    match files with
    | [] => []
    | mostRecent :: others => mostRecent :: fisherYates rnd others
  else files.reverse

/-- Outcome of a playback request: 404 empty-catalog response, a direct
sendFile of one clip, or an engine composition job over a playlist. -/
inductive DroneResponse where
  | notStarted
  | sendFile (path : String)
  | compose (playlist : List String)
deriving DecidableEq, Repr

/-- GET /api/master_drone of src/server.js: list and sort the catalog,
404 when empty, order the playlist, serve a length-1 playlist by sendFile,
otherwise start an ffmpeg concatenation over the playlist. -/
def masterDroneServer (special : Bool) (rnd : Nat → Nat)
    (listing : List FileEntry) : DroneResponse :=
  let files := eligibleServer listing
  if files.length = 0 then .notStarted
  else
    let playlist := (orderedPlaylistServer special rnd files).map (fun f => f.path)
    match playlist with
    | [p] => .sendFile p
    | _ => .compose playlist

/-- Bytes delivered to the caller for a response, given the raw disk contents
`disk` and the external engine output `engine`: sendFile streams the file
bytes unchanged, a composition pipes the engine output. -/
def bytesSent (disk : String → List Nat) (engine : List String → List Nat) :
    DroneResponse → List Nat
  | .notStarted => []
  | .sendFile p => disk p
  | .compose playlist => engine playlist

/-- Whether a response spawns an external engine subprocess. -/
def spawnsEngine : DroneResponse → Bool
  | .compose _ => true
  | _ => false

/-! ### Playback endpoint, src/unnamed/part_003 snapshot -/

/-- Eligibility pipeline of GET /api/master_drone in part_003: keep `.mp4`
names, drop files of at most 400 bytes, sort newest first, then drop every
file whose ffprobe finds no decodable audio stream (`probe` is the injected
engine probe; Promise.all preserves candidate order). -/
def eligible003 (probe : String → Bool) (listing : List FileEntry) : List FileEntry :=
  (sortByTimeDesc
      ((listing.filter (fun f => strEndsWith f.name ".mp4")).filter
        (fun f => 400 < f.size))).filter
    (fun f => probe f.path)

/-- Playlist ordering of part_003 (same shape as src/server.js except the
special branch has no length guard; `shift` on an empty list yields
undefined, never reached because the empty catalog already returned 404). -/
def orderedPlaylist003 (special : Bool) (rnd : Nat → Nat)
    (files : List FileEntry) : List FileEntry :=
  if special then
    match files with
    | [] => []
    | mostRecent :: others => mostRecent :: fisherYates rnd others
  else files.reverse

/-- Composition strategy structure handed to the engine. -/
inductive FilterGraph where
  | concatFilter (n : Nat)
  | amix (n : Nat)
  | concatDemuxer (manifestPaths : List String)
deriving DecidableEq, Repr

/-- Strategy selection of part_003: `mode=simultaneous` deliberately falls
back to the concat demuxer over a generated list file (the source comments
call the UI switch a placebo), every other mode uses
`amix=inputs=N:duration=longest`. -/
def composeStrategy003 (mode : String) (playlist : List String) : FilterGraph :=
  if mode = "simultaneous" then .concatDemuxer playlist
  else .amix playlist.length

/-- Strategy selection of part_001: `mode=sequential` uses the concat filter,
every other mode uses `amix=inputs=N:duration=longest`. -/
def composeStrategy001 (mode : String) (playlist : List String) : FilterGraph :=
  if mode = "sequential" then .concatFilter playlist.length
  else .amix playlist.length

/-- Strategy selection of part_004: same switch as part_001. -/
def composeStrategy004 (mode : String) (playlist : List String) : FilterGraph :=
  if mode = "sequential" then .concatFilter playlist.length
  else .amix playlist.length

/-- Response of GET /api/master_drone in part_003, carrying the selected
strategy for the composition case. -/
inductive Response003 where
  | notStarted
  | sendFile (path : String)
  | compose (g : FilterGraph) (playlist : List String)
deriving DecidableEq, Repr

/-- GET /api/master_drone of part_003: validate, 404 when no survivor,
sendFile for exactly one survivor, otherwise order and compose with the
mode-selected strategy. -/
def masterDrone003 (mode : String) (special : Bool) (rnd : Nat → Nat)
    (probe : String → Bool) (listing : List FileEntry) : Response003 :=
  let files := eligible003 probe listing
  match files with
  | [] => .notStarted
  | [f] => .sendFile f.path
  | _ =>
    let playlist := (orderedPlaylist003 special rnd files).map (fun f => f.path)
    .compose (composeStrategy003 mode playlist) playlist

/-! ### Playlist endpoint, src/unnamed/part_002 snapshot -/

/-- The dash character. -/
def dashc : Char := Char.ofNat 45

/-- JavaScript parseInt on a filename segment: the value of the leading
decimal digits, ignoring any non-digit suffix such as `.mp4` (a segment
with no leading digit is degenerate for the source too and is mapped to
0 here). -/
def leadingNat : List Char → Nat → Nat
  | [], acc => acc
  | c :: r, acc =>
    if c.isDigit then leadingNat r (acc * 10 + (c.toNat - 48)) else acc

/-- The second field of name.split on dashes: the characters after the
first dash and before the next one. -/
def secondDashField (s : List Char) : List Char :=
  ((s.dropWhile (fun c => ¬ (c = dashc))).drop 1).takeWhile
    (fun c => ¬ (c = dashc))

/-- Sort key of the part_002 /api/playlist comparator: parseInt of the
timestamp embedded in the filename between the first two dashes. -/
def fileTs002 (name : String) : Nat := leadingNat (secondDashField name.toList) 0

/-- Comparator of the part_002 playlist sort,
sort((a, b) => timeB - timeA): newest first by filename timestamp. -/
def ts002Ge (a b : String) : Prop := fileTs002 b ≤ fileTs002 a

instance : DecidableRel ts002Ge := fun a b => Nat.decLe (fileTs002 b) (fileTs002 a)

/-- GET /api/playlist of part_002: keep `.mp4` names, sort newest first by
the filename timestamp, with `order=special` anchor the newest and
Fisher-Yates-shuffle the rest, then serve the names as /audio/ URLs.  The
default branch returns the sorted list as is — it is never reversed. -/
def playlist002 (special : Bool) (rnd : Nat → Nat) (names : List String) :
    List String :=
  let files := List.insertionSort ts002Ge
    (names.filter (fun n => strEndsWith n ".mp4"))
  let ordered :=
    if special ∧ 1 < files.length then
      match files with
      | [] => []
      | mostRecent :: rest => mostRecent :: fisherYates rnd rest
    else files
  ordered.map (fun n => "/audio/" ++ n)

/-! ### Upload and trim flow -/

/-- Result of the external trim run, as observed by the fluent-ffmpeg event
handlers: `success size` is the `end` event with the saved output file at
`size` bytes, `failure` is the `error` event. -/
inductive EngineResult where
  | success (outputSize : Nat)
  | failure (msg : String)
deriving DecidableEq, Repr

/-- HTTP-level result of one POST /api/upload request. -/
inductive UploadResult where
  | success
  | failedTooSmall
  | failedEngine
deriving DecidableEq, Repr

/-- Observable outcome of one upload request: the response, whether a
catalog entry (the trimmed output file) remains published in the store, and
whether the temporary upload file remains on disk. -/
structure UploadOutcome where
  result : UploadResult
  published : Bool
  tempRemains : Bool
deriving DecidableEq, Repr

/-- POST /api/upload of src/server.js with its trimAndSave: on `end` the
temp input is unlinked and the promise resolves with no inspection of the
output size, so the output stays published whatever its size; on `error`
the promise rejects, the endpoint unlinks the partial output (finalPath)
but nothing unlinks the temp input. -/
def uploadFlowServer (er : EngineResult) : UploadOutcome :=
  match er with
  | .success _ =>
    { result := .success, published := true, tempRemains := false }
  | .failure _ =>
    { result := .failedEngine, published := false, tempRemains := true }

/-- POST /api/upload of part_001 with its trimAndSave: on `end` the temp
input is unlinked, the output is statted, and a size below 400 bytes
unlinks the output and rejects with the too-small error (the endpoint then
finds finalPath already gone and responds 500); on `error` the engine
rejection leaves the temp input in place. -/
def uploadFlow001 (er : EngineResult) : UploadOutcome :=
  match er with
  | .success size =>
    if size < 400 then
      { result := .failedTooSmall, published := false, tempRemains := false }
    else
      { result := .success, published := true, tempRemains := false }
  | .failure _ =>
    { result := .failedEngine, published := false, tempRemains := true }

/-- POST /api/upload of part_002: the endpoint itself unlinks the temp
upload after compileNewDrone resolves, and its catch block unlinks it again
when compilation fails, so the temp file is gone on both exits. -/
def uploadFlow002 (er : EngineResult) : UploadOutcome :=
  match er with
  | .success _ =>
    { result := .success, published := true, tempRemains := false }
  | .failure _ =>
    { result := .failedEngine, published := false, tempRemains := false }

/-! ### Composition job lifecycle -/

/-- Resource state of one in-flight composition job: whether the generated
concat manifest is still on disk, whether the external engine process is
running, and whether the response stream has ended. -/
structure JobState where
  manifestOnDisk : Bool
  engineRunning : Bool
  writableEnded : Bool
deriving DecidableEq, Repr

/-- Terminal events delivered to a streaming job. -/
inductive JobEvent where
  | engineEnd
  | engineError
  | clientClose
deriving DecidableEq, Repr

/-- A job mid-stream: manifest written, engine spawned, response open. -/
def startedJob : JobState :=
  { manifestOnDisk := true, engineRunning := true, writableEnded := false }

/-- Event handlers of the part_000 composition: `end` and `error` both unlink
the list file (the engine process has exited in either case); the request
`close` handler kills the engine with SIGKILL when the response has not
ended and unlinks the list file unconditionally. -/
def step000 : JobState → JobEvent → JobState
  | s, .engineEnd =>
    { s with manifestOnDisk := false, engineRunning := false, writableEnded := true }
  | s, .engineError =>
    { s with manifestOnDisk := false, engineRunning := false }
  | s, .clientClose =>
    let s1 := if s.writableEnded then s else { s with engineRunning := false }
    { s1 with manifestOnDisk := false }

/-- Event handlers of the part_003 composition: the error handler only sends
a 500 when headers are unsent; no handler unlinks the playlist list file and
no request close handler exists, so a client disconnect runs no cleanup. -/
def step003 : JobState → JobEvent → JobState
  | s, .engineEnd => { s with engineRunning := false, writableEnded := true }
  | s, .engineError => { s with engineRunning := false }
  | s, .clientClose => s

/-! ### Concat manifest generation and its demuxer-side parse -/

/-- Single quote character. -/
def qc : Char := Char.ofNat 39

/-- Backslash character. -/
def bsc : Char := Char.ofNat 92

/-- Newline character. -/
def nlc : Char := Char.ofNat 10

/-- Space character. -/
def spc : Char := Char.ofNat 32

/-- Tab character. -/
def tbc : Char := Char.ofNat 9

/-- Character-wise image of the part_000 replacement
`p.replace(/ quote /g, quote backslash quote quote)`: a quote becomes the
four characters quote backslash quote quote, anything else is unchanged. -/
def replQ1 (c : Char) : List Char :=
  if c = qc then [qc, bsc, qc, qc] else [c]

/-- The whole replaced path. -/
def replQ : List Char → List Char
  | [] => []
  | c :: r => replQ1 c ++ replQ r

/-- The characters `file` followed by one space, opening every manifest
line. -/
def filePrefix5 : List Char :=
  [Char.ofNat 102, Char.ofNat 105, Char.ofNat 108, Char.ofNat 101, spc]

/-- Manifest line of part_000 for one path: `file` space, then the path with
quotes escaped, wrapped in quotes. -/
def manifestLine000 (p : List Char) : List Char :=
  filePrefix5 ++ (qc :: (replQ p ++ [qc]))

/-- Manifest line of part_003 for one path: the path is wrapped in quotes
with no escaping at all. -/
def manifestLine003 (p : List Char) : List Char :=
  filePrefix5 ++ (qc :: (p ++ [qc]))

/-- JavaScript Array.join with a newline separator. -/
def joinNL : List (List Char) → List Char
  | [] => []
  | [l] => l
  | l :: ls => l ++ nlc :: joinNL ls

/-- The written list-file content: lines joined with a newline, as in
`playlist.map(...).join(backslash-n)`. -/
def manifestContent (line : List Char → List Char) (playlist : List (List Char)) :
    List Char :=
  joinNL (playlist.map line)

/-- Modelled from the spec: the demuxing stage of the external engine is not
part of this repository; its token reader (av_get_token of the concat
demuxer) is embedded here so that a manifest entry can be said to denote a
path.  Outside a quoted run, a backslash escapes the next character, a quote
opens a quoted run, and space or tab terminates the token; inside a quoted
run every character is literal until the closing quote. -/
def avTok : Bool → List Char → List Char
  | _, [] => []
  | true, c :: rest =>
    if c = qc then avTok false rest else c :: avTok true rest
  | false, c :: rest =>
    if c = qc then avTok true rest
    else if c = bsc then
      match rest with
      | [] => [c]
      | d :: r => d :: avTok false r
    else if c = spc ∨ c = tbc then []
    else c :: avTok false rest

/-- Modelled from the spec: one manifest line as read by the demuxing stage,
a `file` keyword, one space, then the quoted token giving the path. -/
def parseFileLine (line : List Char) : Option (List Char) :=
  if line.take 5 = filePrefix5
  then some (avTok false (line.drop 5))
  else none

/-- Splitting the written content back into lines at each newline, as the
demuxing stage reads the list file line by line. -/
def splitNL : List Char → List (List Char)
  | [] => [[]]
  | c :: r =>
    if c = nlc then [] :: splitNL r
    else
      match splitNL r with
      | [] => [[c]]
      | l :: ls => (c :: l) :: ls

/-- The paths denoted by a written manifest, line by line. -/
def parseManifest (m : List Char) : List (Option (List Char)) :=
  (splitNL m).map parseFileLine

/-! ### Engine composition semantics -/

/-- Modelled from the spec: the mixing semantics of the external engine for
`amix=inputs=N:duration=longest` — all inputs summed sample-wise into one
output whose duration equals the longest input, shorter inputs padded with
implicit silence. -/
def amixMix (inputs : List (List Int)) : List Int :=
  let n := (inputs.map List.length).foldr Nat.max 0
  (List.range n).map (fun k => (inputs.map (fun l => l.getD k 0)).sum)

/-- Modelled from the spec: back-to-back concatenation semantics of the
concat filter and of the concat demuxer. -/
def concatAll (inputs : List (List Int)) : List Int := inputs.flatten

/-- Modelled from the spec: engine output for a selected filter graph. -/
def runFilter (g : FilterGraph) (inputs : List (List Int)) : List Int :=
  match g with
  | .amix _ => amixMix inputs
  | .concatFilter _ => concatAll inputs
  | .concatDemuxer _ => concatAll inputs

/-- Longest input duration. -/
def maxLen (inputs : List (List Int)) : Nat :=
  (inputs.map List.length).foldr Nat.max 0

/-! ### Reset endpoint -/

/-- Outcome of POST /api/reset: HTTP status and the catalog afterwards. -/
structure ResetOutcome where
  status : Nat
  filesAfter : List String
deriving DecidableEq, Repr

/-- POST /api/reset of src/server.js (identical in part_000 up to the
empty-store message): a provided secret different from the configured key
(absent counts as different) returns 403 and touches nothing; otherwise
every file of the store directory is unlinked. -/
def resetEndpoint (provided : Option String) (key : String)
    (files : List String) : ResetOutcome :=
  if provided ≠ some key then { status := 403, filesAfter := files }
  else if files.length = 0 then { status := 200, filesAfter := files }
  else { status := 200, filesAfter := [] }

/-- Spec-side ordering following the words of claim C6: the catalog sorted
oldest-first by the creation-time key. -/
def sortedOldestFirst (files : List FileEntry) : List FileEntry :=
  List.insertionSort timeLe files

/-! ## Lemmas -/

theorem cons_set_perm (t : List α) :
    ∀ (j : Nat) (a xj : α), t[j]? = some xj →
      List.Perm (xj :: t.set j a) (a :: t) := by
  induction t with
  | nil => intro j a xj h; simp at h
  | cons b s ih =>
    intro j a xj h
    cases j with
    | zero =>
      have hb : b = xj := by simpa using h
      subst hb
      simpa using List.Perm.swap a b s
    | succ m =>
      have hm : s[m]? = some xj := by simpa using h
      have e1 : (b :: s).set (m + 1) a = b :: s.set m a := by simp
      rw [e1]
      have p1 : List.Perm (xj :: b :: s.set m a) (b :: xj :: s.set m a) :=
        List.Perm.swap b xj _
      have p2 : List.Perm (b :: xj :: s.set m a) (b :: (a :: s)) :=
        List.Perm.cons b (ih m a xj hm)
      have p3 : List.Perm (b :: a :: s) (a :: b :: s) := List.Perm.swap a b s
      exact List.Perm.trans p1 (List.Perm.trans p2 p3)

theorem set_set_perm (l : List α) :
    ∀ (i j : Nat) (xi xj : α), l[i]? = some xi → l[j]? = some xj →
      List.Perm ((l.set i xj).set j xi) l := by
  induction l with
  | nil => intro i j xi xj hi _; simp at hi
  | cons a t ih =>
    intro i j xi xj hi hj
    cases i with
    | zero =>
      have ha : a = xi := by simpa using hi
      subst ha
      cases j with
      | zero =>
        have ha2 : a = xj := by simpa using hj
        subst ha2
        simp
      | succ m =>
        have hm : t[m]? = some xj := by simpa using hj
        have e1 : ((a :: t).set 0 xj).set (m + 1) a = xj :: t.set m a := by simp
        rw [e1]
        exact cons_set_perm t m a xj hm
    | succ n =>
      cases j with
      | zero =>
        have ha : a = xj := by simpa using hj
        subst ha
        have hn : t[n]? = some xi := by simpa using hi
        have e1 : ((a :: t).set (n + 1) a).set 0 xi = xi :: t.set n a := by simp
        rw [e1]
        exact cons_set_perm t n a xi hn
      | succ m =>
        have hn : t[n]? = some xi := by simpa using hi
        have hm : t[m]? = some xj := by simpa using hj
        have e1 : ((a :: t).set (n + 1) xj).set (m + 1) xi
            = a :: ((t.set n xj).set m xi) := by simp
        rw [e1]
        exact List.Perm.cons a (ih n m xi xj hn hm)

theorem listSwap_perm (l : List α) (i j : Nat) : List.Perm (listSwap l i j) l := by
  unfold listSwap
  cases hi : l[i]? with
  | none => exact List.Perm.refl l
  | some xi =>
    cases hj : l[j]? with
    | none => exact List.Perm.refl l
    | some xj => exact set_set_perm l i j xi xj hi hj

theorem fyFrom_perm (rnd : Nat → Nat) :
    ∀ (k : Nat) (l : List α), List.Perm (fyFrom rnd k l) l := by
  intro k
  induction k with
  | zero => intro l; exact List.Perm.refl l
  | succ i ih =>
    intro l
    exact List.Perm.trans (ih _) (listSwap_perm l (i + 1) (rnd (i + 1) % (i + 2)))

theorem fisherYates_perm (rnd : Nat → Nat) (l : List α) :
    List.Perm (fisherYates rnd l) l :=
  fyFrom_perm rnd (l.length - 1) l

/-! ## Claim theorems -/

/-- Claim C1 counterexample: the trimAndSave of src/server.js performs no
post-trim size verification.  For the concrete engine run that saves a
0-byte trimmed output (a clip that was silence throughout), the upload
resolves successfully and the degenerate clip stays published in the
catalog, contradicting the claim that such an upload is rejected and never
published. -/
theorem trim_degenerate_published_server :
    uploadFlowServer (.success 0)
      = { result := .success, published := true, tempRemains := false } := rfl

/-- Claim C1 (amended): in the part_001 snapshot of trimAndSave, an upload
whose trimmed output is below the 400-byte threshold is rejected with the
explicit too-small error, the undersized output file is deleted, and no
catalog entry remains; the src/server.js snapshot performs no such check. -/
theorem trim_degenerate_rejected_001 (size : Nat) (h : size < 400) :
    uploadFlow001 (.success size)
      = { result := .failedTooSmall, published := false, tempRemains := false } := by
  simp [uploadFlow001, h]

/-- Claim C1 witness: the amended theorem at a 0-byte trimmed output. -/
theorem trim_degenerate_rejected_001_witness :
    uploadFlow001 (.success 0)
      = { result := .failedTooSmall, published := false, tempRemains := false } :=
  trim_degenerate_rejected_001 0 (by decide)

/-- Claim C2 counterexample: in src/server.js, an engine failure during the
trim rejects the promise without unlinking the temporary upload, and the
endpoint catch block only unlinks the final output path, so the temporary
upload file remains on disk. -/
theorem temp_upload_leak_server :
    (uploadFlowServer (.failure "boom")).tempRemains = true := rfl

/-- Claim C2 (amended): the part_002 upload endpoint unlinks the temporary
upload on both its success and failure paths, so no temp file remains after
any outcome; in src/server.js the temp is deleted on engine success only,
and remains after an engine failure. -/
theorem temp_upload_deleted_002 (er : EngineResult) (size : Nat) :
    (uploadFlow002 er).tempRemains = false ∧
    (uploadFlowServer (.success size)).tempRemains = false := by
  refine ⟨?_, rfl⟩
  cases er <;> rfl

/-- Claim C4 counterexample: in the part_003 composition, the generated
playlist list file is never unlinked by any handler — after a normal engine
completion (a terminal state) the manifest is still on disk — and no request
close handler exists, so a client disconnect mid-stream runs no cleanup at
all: the manifest stays and the engine process is not killed. -/
theorem lifecycle_leak_003 :
    (step003 startedJob .engineEnd).manifestOnDisk = true ∧
    step003 startedJob .clientClose = startedJob ∧
    (step003 startedJob .clientClose).engineRunning = true := ⟨rfl, rfl, rfl⟩

/-- Claim C4 (amended): in the part_000 composition, every terminal event
from the mid-stream state — engine end, engine error, or client disconnect —
leaves the temp manifest deleted and the engine process not running (the
close handler kills ffmpeg with SIGKILL when the response has not ended);
the part_003 snapshot performs none of this cleanup. -/
theorem lifecycle_cleanup_000 (e : JobEvent) :
    (step000 startedJob e).manifestOnDisk = false ∧
    (step000 startedJob e).engineRunning = false := by
  cases e <;> exact ⟨rfl, rfl⟩

/-- Claim C9 counterexample: in part_003, a request that selects the
simultaneous strategy (`mode=simultaneous`) is deliberately routed to the
concat-demuxer fallback, so on two inputs the output is their back-to-back
concatenation (duration = sum of inputs), not the amix result of duration
equal to the longest input. -/
theorem simultaneous_placebo_003 :
    composeStrategy003 "simultaneous" ["a", "b"] = .concatDemuxer ["a", "b"] ∧
    runFilter (composeStrategy003 "simultaneous" ["a", "b"]) [[1], [2, 3]]
      = [1, 2, 3] ∧
    amixMix [[1], [2, 3]] = [3, 3] := by decide

/-- Claim C9 (amended): in the part_001 and part_004 snapshots, any request
not selecting the sequential mode is composed with
`amix=inputs=N:duration=longest`, whose output sums all inputs sample-wise
into one stream of duration equal to the longest input; in part_003 the
simultaneous selection instead falls back to sequential concatenation. -/
theorem simultaneous_amix_001_004 (mode : String) (playlist : List String)
    (inputs : List (List Int)) (h : mode ≠ "sequential") :
    composeStrategy001 mode playlist = .amix playlist.length ∧
    composeStrategy004 mode playlist = .amix playlist.length ∧
    runFilter (composeStrategy001 mode playlist) inputs = amixMix inputs ∧
    (amixMix inputs).length = maxLen inputs := by
  refine ⟨?_, ?_, ?_, ?_⟩
  · simp [composeStrategy001, h]
  · simp [composeStrategy004, h]
  · simp [composeStrategy001, h, runFilter]
  · simp [amixMix, maxLen]

/-- Claim C9 witness: the amended theorem at the simultaneous mode with two
concrete inputs of different durations. -/
theorem simultaneous_amix_001_004_witness :
    composeStrategy001 "simultaneous" ["x", "y"] = .amix 2 ∧
    composeStrategy004 "simultaneous" ["x", "y"] = .amix 2 ∧
    runFilter (composeStrategy001 "simultaneous" ["x", "y"]) [[5], [6, 7]]
      = amixMix [[5], [6, 7]] ∧
    (amixMix [[5], [6, 7]]).length = maxLen [[5], [6, 7]] :=
  simultaneous_amix_001_004 "simultaneous" ["x", "y"] [[5], [6, 7]] (by decide)

theorem reverse_eq_self_of_len_le_one (l : List α) (h : l.length ≤ 1) :
    l.reverse = l := by
  match l with
  | [] => rfl
  | [_] => rfl
  | _ :: _ :: _ => simp at h

/-- Claim C3: for the src/server.js anchored-shuffle ordering over an
eligible set with pairwise-distinct creation times, when the set has at
least two clips the playlist starts with the newest-first head of the
sorted set — the clip strictly newer than every other — followed by a
Fisher-Yates permutation of the remaining clips; with at most one clip the
ordering is the identity. -/
theorem anchored_shuffle_server (rnd : Nat → Nat) (listing : List FileEntry)
    (m : FileEntry) (others : List FileEntry)
    (hdist : (eligibleServer listing).Pairwise (fun a b => a.time ≠ b.time)) :
    (eligibleServer listing = m :: others →
      2 ≤ (eligibleServer listing).length →
      orderedPlaylistServer true rnd (eligibleServer listing)
          = m :: fisherYates rnd others ∧
      (∀ f ∈ others, f.time < m.time) ∧
      List.Perm (fisherYates rnd others) others) ∧
    ((eligibleServer listing).length ≤ 1 →
      orderedPlaylistServer true rnd (eligibleServer listing)
        = eligibleServer listing) := by
  constructor
  · intro heq h2
    have hsorted : List.Sorted timeGe (eligibleServer listing) :=
      List.sorted_insertionSort timeGe _
    rw [heq] at hsorted hdist h2
    refine ⟨?_, ?_, fisherYates_perm rnd others⟩
    · rw [heq]
      unfold orderedPlaylistServer
      have hlen : 1 < (m :: others).length := h2
      rw [if_pos ⟨rfl, hlen⟩]
    · intro f hf
      have hle : f.time ≤ m.time := List.rel_of_sorted_cons hsorted f hf
      have hne : m.time ≠ f.time := (List.pairwise_cons.mp hdist).1 f hf
      exact Nat.lt_of_le_of_ne hle (fun e => hne e.symm)
  · intro hle1
    unfold orderedPlaylistServer
    have hcond : ¬ ((true : Bool) ∧ 1 < (eligibleServer listing).length) := by
      intro hc
      omega
    rw [if_neg hcond]
    exact reverse_eq_self_of_len_le_one _ hle1

/-- Claim C3 witness: a three-clip catalog with distinct times, under the
constant-zero random source. -/
theorem anchored_shuffle_server_witness :
    orderedPlaylistServer true (fun _ => 0)
        (eligibleServer
          [{ name := "ahh-1.webm", path := "/d/1.webm", time := 1, size := 500 },
           { name := "ahh-2.webm", path := "/d/2.webm", time := 2, size := 500 },
           { name := "ahh-3.webm", path := "/d/3.webm", time := 3, size := 500 }])
      = { name := "ahh-3.webm", path := "/d/3.webm", time := 3, size := 500 }
          :: fisherYates (fun _ => 0)
            [{ name := "ahh-2.webm", path := "/d/2.webm", time := 2, size := 500 },
             { name := "ahh-1.webm", path := "/d/1.webm", time := 1, size := 500 }] ∧
    (∀ f ∈ ([{ name := "ahh-2.webm", path := "/d/2.webm", time := 2, size := 500 },
              { name := "ahh-1.webm", path := "/d/1.webm", time := 1, size := 500 }] :
            List FileEntry),
      f.time < ({ name := "ahh-3.webm", path := "/d/3.webm", time := 3,
                  size := 500 } : FileEntry).time) ∧
    List.Perm
      (fisherYates (fun _ => 0)
        ([{ name := "ahh-2.webm", path := "/d/2.webm", time := 2, size := 500 },
          { name := "ahh-1.webm", path := "/d/1.webm", time := 1, size := 500 }] :
         List FileEntry))
      ([{ name := "ahh-2.webm", path := "/d/2.webm", time := 2, size := 500 },
        { name := "ahh-1.webm", path := "/d/1.webm", time := 1, size := 500 }] :
       List FileEntry) :=
  (anchored_shuffle_server (fun _ => 0)
      [{ name := "ahh-1.webm", path := "/d/1.webm", time := 1, size := 500 },
       { name := "ahh-2.webm", path := "/d/2.webm", time := 2, size := 500 },
       { name := "ahh-3.webm", path := "/d/3.webm", time := 3, size := 500 }]
      { name := "ahh-3.webm", path := "/d/3.webm", time := 3, size := 500 }
      [{ name := "ahh-2.webm", path := "/d/2.webm", time := 2, size := 500 },
       { name := "ahh-1.webm", path := "/d/1.webm", time := 1, size := 500 }]
      (by decide)).1 (by decide) (by decide)

theorem filter_orderedInsert_neg {α : Type} (r : α → α → Prop) [DecidableRel r]
    (p : α → Bool) (a : α) (ha : p a = false) :
    ∀ l : List α, (List.orderedInsert r a l).filter p = l.filter p := by
  intro l
  induction l with
  | nil => simp [ha]
  | cons b t ih =>
    by_cases hr : r a b
    · simp [List.orderedInsert, hr, List.filter_cons, ha]
    · simp only [List.orderedInsert, if_neg hr, List.filter_cons, ih]

theorem mem_eligible003 (probe : String → Bool) (l : List FileEntry)
    (f : FileEntry) (hf : f ∈ eligible003 probe l) :
    400 < f.size ∧ probe f.path = true := by
  unfold eligible003 at hf
  have h1 := List.mem_filter.mp hf
  have h2 : f ∈ sortByTimeDesc
      ((l.filter (fun g => strEndsWith g.name ".mp4")).filter
        (fun g => 400 < g.size)) := h1.1
  have h3 : f ∈ (l.filter (fun g => strEndsWith g.name ".mp4")).filter
      (fun g => 400 < g.size) :=
    ((List.perm_insertionSort timeGe _).mem_iff).mp h2
  have h4 : 400 < f.size := by simpa using (List.mem_filter.mp h3).2
  exact ⟨h4, h1.2⟩

/-- Claim C7 counterexample: the src/server.js playback endpoint filters the
catalog only by the `.webm` extension — no size filter and no structural
probe — so a clip file truncated to zero bytes is not excluded: with a
zero-byte clip and a healthy clip on disk, the composed playlist contains
the zero-byte clip path. -/
theorem zero_byte_included_server :
    masterDroneServer false (fun _ => 0)
        [{ name := "ahh-9.webm", path := "/d/ahh-9.webm", time := 9, size := 0 },
         { name := "ahh-5.webm", path := "/d/ahh-5.webm", time := 5, size := 1000 }]
      = .compose ["/d/ahh-5.webm", "/d/ahh-9.webm"] := by decide

/-- Claim C7 (amended): in the part_003 playback endpoint, a clip failing
validation — at most 400 bytes (for example truncated to zero bytes) or
failing the audio-stream probe — is excluded from the eligible set without
aborting the request: the eligible set and the whole response are the same
as if the bad clip were absent, so the remaining clips are still validated,
sequenced and played; the src/server.js snapshot performs no such
validation. -/
theorem invalid_clip_excluded_003 (probe : String → Bool)
    (listing : List FileEntry) (c : FileEntry) (mode : String) (special : Bool)
    (rnd : Nat → Nat) (hbad : c.size ≤ 400 ∨ probe c.path = false) :
    c ∉ eligible003 probe (c :: listing) ∧
    eligible003 probe (c :: listing) = eligible003 probe listing ∧
    masterDrone003 mode special rnd probe (c :: listing)
      = masterDrone003 mode special rnd probe listing := by
  have heq : eligible003 probe (c :: listing) = eligible003 probe listing := by
    unfold eligible003
    by_cases hext : strEndsWith c.name ".mp4"
    · by_cases hsize : 400 < c.size
      · have hpr : probe c.path = false := by
          rcases hbad with h | h
          · omega
          · exact h
        rw [List.filter_cons, if_pos (by simpa using hext),
          List.filter_cons, if_pos (by simpa using hsize)]
        unfold sortByTimeDesc
        rw [List.insertionSort]
        exact filter_orderedInsert_neg timeGe _ c hpr _
      · rw [List.filter_cons, if_pos (by simpa using hext),
          List.filter_cons, if_neg (by simpa using hsize)]
    · rw [List.filter_cons, if_neg (by simpa using hext)]
  refine ⟨?_, heq, ?_⟩
  · intro hmem
    have h := mem_eligible003 probe (c :: listing) c hmem
    rcases hbad with hb | hb
    · omega
    · rw [hb] at h
      exact Bool.false_ne_true h.2
  · unfold masterDrone003
    rw [heq]

/-- Claim C7 witness: a zero-byte clip alongside two healthy clips changes
neither the eligible set nor the response, and is itself excluded. -/
theorem invalid_clip_excluded_003_witness :
    ({ name := "bad.mp4", path := "/d/bad.mp4", time := 9, size := 0 } : FileEntry)
        ∉ eligible003 (fun _ => true)
          ({ name := "bad.mp4", path := "/d/bad.mp4", time := 9, size := 0 }
            :: [{ name := "a.mp4", path := "/d/a.mp4", time := 5, size := 900 },
                { name := "b.mp4", path := "/d/b.mp4", time := 6, size := 800 }]) ∧
    eligible003 (fun _ => true)
        ({ name := "bad.mp4", path := "/d/bad.mp4", time := 9, size := 0 }
          :: [{ name := "a.mp4", path := "/d/a.mp4", time := 5, size := 900 },
              { name := "b.mp4", path := "/d/b.mp4", time := 6, size := 800 }])
      = eligible003 (fun _ => true)
          [{ name := "a.mp4", path := "/d/a.mp4", time := 5, size := 900 },
           { name := "b.mp4", path := "/d/b.mp4", time := 6, size := 800 }] ∧
    masterDrone003 "sequential" false (fun _ => 0) (fun _ => true)
        ({ name := "bad.mp4", path := "/d/bad.mp4", time := 9, size := 0 }
          :: [{ name := "a.mp4", path := "/d/a.mp4", time := 5, size := 900 },
              { name := "b.mp4", path := "/d/b.mp4", time := 6, size := 800 }])
      = masterDrone003 "sequential" false (fun _ => 0) (fun _ => true)
          [{ name := "a.mp4", path := "/d/a.mp4", time := 5, size := 900 },
           { name := "b.mp4", path := "/d/b.mp4", time := 6, size := 800 }] :=
  invalid_clip_excluded_003 (fun _ => true)
    [{ name := "a.mp4", path := "/d/a.mp4", time := 5, size := 900 },
     { name := "b.mp4", path := "/d/b.mp4", time := 6, size := 800 }]
    { name := "bad.mp4", path := "/d/bad.mp4", time := 9, size := 0 }
    "sequential" false (fun _ => 0) (Or.inl (by decide))

/-- Claim C6 counterexample: the part_002 /api/playlist endpoint cited by
the claim sorts newest first by the filename timestamp and its default
branch never reverses, so for two clips with embedded creation times
100 < 200 the default playlist lists the newer clip first — it is not the
catalog sorted oldest-first. -/
theorem newest_first_playlist_002 :
    playlist002 false (fun _ => 0) ["ahhhhhhh-100.mp4", "ahhhhhhh-200.mp4"]
      = ["/audio/ahhhhhhh-200.mp4", "/audio/ahhhhhhh-100.mp4"] ∧
    playlist002 false (fun _ => 0) ["ahhhhhhh-100.mp4", "ahhhhhhh-200.mp4"]
      ≠ ["/audio/ahhhhhhh-100.mp4", "/audio/ahhhhhhh-200.mp4"] := by decide

/-- Claim C6 (amended): for a catalog of clips with pairwise-distinct
creation times, the default chronological playlist of src/server.js — the
newest-first sort reversed — equals the catalog sorted oldest-first; the
part_002 /api/playlist endpoint instead returns its default playlist
newest-first. -/
theorem chronological_playlist (rnd : Nat → Nat) (files : List FileEntry)
    (hdist : files.Pairwise (fun a b => a.time ≠ b.time)) :
    orderedPlaylistServer false rnd (sortByTimeDesc files)
      = sortedOldestFirst files := by
  have hrev : orderedPlaylistServer false rnd (sortByTimeDesc files)
      = (sortByTimeDesc files).reverse := by
    simp [orderedPlaylistServer]
  have hsym : ∀ {x y : FileEntry}, x.time ≠ y.time → y.time ≠ x.time :=
    fun h => h.symm
  have hpermL : List.Perm (orderedPlaylistServer false rnd (sortByTimeDesc files))
      files := by
    rw [hrev]
    exact List.Perm.trans (List.reverse_perm _)
      (List.perm_insertionSort timeGe files)
  have hpermR : List.Perm (sortedOldestFirst files) files :=
    List.perm_insertionSort timeLe files
  have hdistL : (orderedPlaylistServer false rnd
      (sortByTimeDesc files)).Pairwise (fun a b => a.time ≠ b.time) :=
    (List.Perm.pairwise_iff hsym hpermL).mpr hdist
  have hdistR : (sortedOldestFirst files).Pairwise (fun a b => a.time ≠ b.time) :=
    (List.Perm.pairwise_iff hsym hpermR).mpr hdist
  have hsortL : List.Sorted timeLt
      (orderedPlaylistServer false rnd (sortByTimeDesc files)) := by
    rw [hrev]
    have hges : List.Pairwise (fun a b : FileEntry => b.time ≤ a.time)
        (sortByTimeDesc files) :=
      List.sorted_insertionSort timeGe files
    have hasc : List.Pairwise (fun a b : FileEntry => a.time ≤ b.time)
        (sortByTimeDesc files).reverse :=
      List.pairwise_reverse.mpr hges
    have hner : List.Pairwise (fun a b : FileEntry => a.time ≠ b.time)
        (sortByTimeDesc files).reverse := by
      rw [← hrev]
      exact hdistL
    exact (hasc.and hner).imp (fun hp => Nat.lt_of_le_of_ne hp.1 hp.2)
  have hsortR : List.Sorted timeLt (sortedOldestFirst files) := by
    have hles : List.Pairwise (fun a b : FileEntry => a.time ≤ b.time)
        (sortedOldestFirst files) :=
      List.sorted_insertionSort timeLe files
    exact (hles.and hdistR).imp (fun hp => Nat.lt_of_le_of_ne hp.1 hp.2)
  exact List.eq_of_perm_of_sorted (hpermL.trans hpermR.symm) hsortL hsortR

/-- Claim C6 witness: a three-clip catalog with distinct times comes out
oldest first. -/
theorem chronological_playlist_witness :
    orderedPlaylistServer false (fun _ => 0)
      (sortByTimeDesc
        [{ name := "b.webm", path := "/d/b.webm", time := 7, size := 500 },
         { name := "a.webm", path := "/d/a.webm", time := 3, size := 600 },
         { name := "c.webm", path := "/d/c.webm", time := 9, size := 700 }])
      = sortedOldestFirst
        [{ name := "b.webm", path := "/d/b.webm", time := 7, size := 500 },
         { name := "a.webm", path := "/d/a.webm", time := 3, size := 600 },
         { name := "c.webm", path := "/d/c.webm", time := 9, size := 700 }] :=
  chronological_playlist (fun _ => 0)
    [{ name := "b.webm", path := "/d/b.webm", time := 7, size := 500 },
     { name := "a.webm", path := "/d/a.webm", time := 3, size := 600 },
     { name := "c.webm", path := "/d/c.webm", time := 9, size := 700 }]
    (by decide)

theorem avTok_true_quote (rest : List Char) :
    avTok true (qc :: rest) = avTok false rest := by
  simp [avTok]

theorem avTok_false_quote (rest : List Char) :
    avTok false (qc :: rest) = avTok true rest := by
  rw [avTok.eq_def]
  simp

theorem avTok_true_cons (c : Char) (rest : List Char) (h : c ≠ qc) :
    avTok true (c :: rest) = c :: avTok true rest := by
  simp [avTok, h]

theorem avTok_false_backslash (d : Char) (r : List Char) :
    avTok false (bsc :: d :: r) = d :: avTok false r := by
  have h : ¬ (bsc = qc) := by decide
  rw [avTok.eq_def]
  simp [h]

theorem avTok_replQ (p : List Char) : avTok true (replQ p ++ [qc]) = p := by
  induction p with
  | nil => simp [replQ, avTok]
  | cons c r ih =>
    by_cases hc : c = qc
    · subst hc
      have e : replQ (qc :: r) ++ [qc]
          = qc :: bsc :: qc :: (qc :: (replQ r ++ [qc])) := by
        simp [replQ, replQ1]
      rw [e, avTok_true_quote, avTok_false_backslash, avTok_false_quote, ih]
    · have e : replQ (c :: r) ++ [qc] = c :: (replQ r ++ [qc]) := by
        simp [replQ, replQ1, hc]
      rw [e, avTok_true_cons c _ hc, ih]

theorem parse_line000 (p : List Char) : parseFileLine (manifestLine000 p) = some p := by
  have hlen : filePrefix5.length = 5 := rfl
  rw [parseFileLine, manifestLine000, List.take_left' hlen, if_pos rfl,
    List.drop_left' hlen, avTok_false_quote, avTok_replQ]

theorem splitNL_no_newline (l : List Char) : nlc ∉ l → splitNL l = [l] := by
  induction l with
  | nil => intro _; rfl
  | cons c r ih =>
    intro h
    have hc : ¬ (c = nlc) := fun e => h (by simp [e])
    have hr : nlc ∉ r := fun hm => h (by simp [hm])
    simp [splitNL, hc, ih hr]

theorem splitNL_append (l rest : List Char) :
    nlc ∉ l → splitNL (l ++ nlc :: rest) = l :: splitNL rest := by
  induction l with
  | nil => intro _; simp [splitNL]
  | cons c r ih =>
    intro h
    have hc : ¬ (c = nlc) := fun e => h (by simp [e])
    have hr : nlc ∉ r := fun hm => h (by simp [hm])
    simp [splitNL, hc, ih hr]

theorem splitNL_joinNL (lines : List (List Char)) (h : ∀ l ∈ lines, nlc ∉ l)
    (hne : lines ≠ []) : splitNL (joinNL lines) = lines := by
  induction lines with
  | nil => cases hne rfl
  | cons l ls ih =>
    cases ls with
    | nil => exact splitNL_no_newline l (h l (by simp))
    | cons l2 ls2 =>
      have e : joinNL (l :: l2 :: ls2) = l ++ nlc :: joinNL (l2 :: ls2) := rfl
      rw [e, splitNL_append l _ (h l (by simp)),
        ih (fun x hx => h x (by simp [hx])) (by simp)]

theorem not_nl_replQ (p : List Char) : nlc ∉ p → nlc ∉ replQ p := by
  induction p with
  | nil => intro _; simp [replQ]
  | cons c r ih =>
    intro h hmem
    have hc : ¬ (c = nlc) := fun e => h (by simp [e])
    have hr : nlc ∉ r := fun hm => h (by simp [hm])
    rw [show replQ (c :: r) = replQ1 c ++ replQ r from rfl] at hmem
    rcases List.mem_append.mp hmem with h1 | h2
    · unfold replQ1 at h1
      by_cases hq : c = qc
      · rw [if_pos hq] at h1
        simp at h1
        rcases h1 with e | e | e <;> exact absurd e (by decide)
      · rw [if_neg hq] at h1
        simp at h1
        exact hc h1.symm
    · exact ih hr h2

theorem not_nl_line000 (p : List Char) (h : nlc ∉ p) : nlc ∉ manifestLine000 p := by
  intro hm
  rw [manifestLine000] at hm
  rcases List.mem_append.mp hm with h1 | h2
  · exact absurd h1 (by decide)
  · rcases List.mem_cons.mp h2 with e | h3
    · exact absurd e (by decide)
    · rcases List.mem_append.mp h3 with h4 | h5
      · exact not_nl_replQ p h h4
      · simp at h5
        exact absurd h5 (by decide)

/-- Claim C8 counterexample: the part_003 manifest generator wraps the path
in quotes without escaping, so for the concrete path a-quote-b the manifest
entry is read back by the demuxing stage as the different path ab: an
untrusted quote character corrupts the manifest format. -/
theorem manifest_unescaped_003 :
    parseFileLine (manifestLine003 [Char.ofNat 97, qc, Char.ofNat 98])
      = some [Char.ofNat 97, Char.ofNat 98] ∧
    [Char.ofNat 97, Char.ofNat 98] ≠ [Char.ofNat 97, qc, Char.ofNat 98] := by
  constructor
  · rfl
  · decide

/-- Claim C8 (amended): the part_000 sequential-concatenation manifest
contains one entry per input path in playlist order, and its quote escaping
makes every entry denote exactly its path again under the demuxing-stage
token reader, for any playlist of newline-free paths; the part_003 variant
writes the same manifest without escaping and is corrupted by paths
containing quotes. -/
theorem manifest_roundtrip_000 (playlist : List (List Char))
    (hnl : ∀ p ∈ playlist, nlc ∉ p) (hne : playlist ≠ []) :
    parseManifest (manifestContent manifestLine000 playlist)
      = playlist.map some := by
  unfold parseManifest manifestContent
  have hlines : ∀ l ∈ playlist.map manifestLine000, nlc ∉ l := by
    intro l hl
    rcases List.mem_map.mp hl with ⟨p, hp, rfl⟩
    exact not_nl_line000 p (hnl p hp)
  rw [splitNL_joinNL _ hlines (by simpa using hne), List.map_map]
  exact List.map_congr_left (fun p _ => parse_line000 p)

/-- Claim C8 witness: a two-path playlist whose first path contains a quote
round-trips through the written manifest. -/
theorem manifest_roundtrip_000_witness :
    parseManifest (manifestContent manifestLine000
        [[Char.ofNat 97, qc, Char.ofNat 98], [Char.ofNat 99]])
      = [some [Char.ofNat 97, qc, Char.ofNat 98], some [Char.ofNat 99]] :=
  manifest_roundtrip_000 [[Char.ofNat 97, qc, Char.ofNat 98], [Char.ofNat 99]]
    (by decide) (by decide)

/-- Claim C10: a reset request whose provided secret differs from the
configured key answers 403 Forbidden and leaves the catalog untouched, and
any run that removes files can only have happened with the matching
secret. -/
theorem reset_requires_secret (provided : Option String) (key : String)
    (files : List String) :
    (provided ≠ some key →
      resetEndpoint provided key files = { status := 403, filesAfter := files }) ∧
    ((resetEndpoint provided key files).filesAfter ≠ files → provided = some key) := by
  constructor
  · intro h
    simp [resetEndpoint, h]
  · intro h
    by_contra hne
    simp [resetEndpoint, hne] at h

/-- Claim C5: when the eligible set of a playback request holds exactly one
clip, src/server.js serves that clip with res.sendFile — the delivered bytes
are the clip's raw published bytes for every disk state — and no engine
composition subprocess is started. -/
theorem single_clip_fast_path (special : Bool) (rnd : Nat → Nat)
    (listing : List FileEntry) (c : FileEntry)
    (disk : String → List Nat) (engine : List String → List Nat)
    (h : eligibleServer listing = [c]) :
    masterDroneServer special rnd listing = .sendFile c.path ∧
    bytesSent disk engine (masterDroneServer special rnd listing) = disk c.path ∧
    spawnsEngine (masterDroneServer special rnd listing) = false := by
  have hresp : masterDroneServer special rnd listing = .sendFile c.path := by
    unfold masterDroneServer
    rw [h]
    simp [orderedPlaylistServer]
  refine ⟨hresp, ?_, ?_⟩ <;> rw [hresp] <;> rfl

/-- Claim C5 witness: a one-clip catalog is served directly, byte-identical
to the stored file, with no subprocess. -/
theorem single_clip_fast_path_witness :
    masterDroneServer true (fun _ => 0)
        [{ name := "ahh-5.webm", path := "/var/data/ahh-5.webm", time := 5, size := 900 }]
      = .sendFile "/var/data/ahh-5.webm" ∧
    bytesSent (fun _ => [1, 2, 3]) (fun _ => [9])
        (masterDroneServer true (fun _ => 0)
          [{ name := "ahh-5.webm", path := "/var/data/ahh-5.webm", time := 5, size := 900 }])
      = [1, 2, 3] ∧
    spawnsEngine (masterDroneServer true (fun _ => 0)
        [{ name := "ahh-5.webm", path := "/var/data/ahh-5.webm", time := 5, size := 900 }])
      = false :=
  single_clip_fast_path true (fun _ => 0)
    [{ name := "ahh-5.webm", path := "/var/data/ahh-5.webm", time := 5, size := 900 }]
    { name := "ahh-5.webm", path := "/var/data/ahh-5.webm", time := 5, size := 900 }
    (fun _ => [1, 2, 3]) (fun _ => [9]) (by decide)

/-- Claim C10 witness: a wrong secret against the default key on a one-clip
store is rejected with 403 and deletes nothing. -/
theorem reset_requires_secret_witness :
    resetEndpoint (some "wrong") "lulu" ["ahh-1.webm"]
      = { status := 403, filesAfter := ["ahh-1.webm"] } :=
  (reset_requires_secret (some "wrong") "lulu" ["ahh-1.webm"]).1 (by decide)

end Ahh
